import Mathlib

/-!
Verification development for the rush shell's command dispatch and execution
engine.  The Rust sources are shallowly embedded: each definition below is a
direct translation of the corresponding item in the repository, with operating
system effects (PATH lookup, filesystem metadata, process spawning, pipe
channels) turned into explicit parameters.
-/

namespace Rush

/-! ## Error taxonomy (rush-error crate)

The eval layer (rush-error/src/eval_errors.rs) and the exec layer
(rush-error/src/exec_errors.rs) each define a kind+context error record.
PathBuf-valued fields are modelled as the strings they display as. -/

inductive DispatchError where
  | UnknownCommand (name : String)
  | NotAnExecutable (perms : Nat)
  | FailedToReadMetadata (path : String)
deriving DecidableEq, Repr

inductive EvalErrorCategory where
  | Dispatch (e : DispatchError)
deriving DecidableEq, Repr

structure EvalErrorContext where
  command_name : String
  command_args : List String
deriving DecidableEq, Repr

structure EvalError where
  kind : EvalErrorCategory
  context : EvalErrorContext
deriving DecidableEq, Repr

inductive CommandType where
  | Builtin
  | Executable
deriving DecidableEq, Repr

inductive ArgumentError where
  | InvalidArgumentCount (expected actual : Nat)
  | InvalidArgument (arg : String)
  | InvalidValue (value : String)
deriving DecidableEq, Repr

inductive TerminalError where
  | FailedToParseStdout (detail : String)
  | FailedToParseStderr (detail : String)
deriving DecidableEq, Repr

inductive FilesystemError where
  | FailedToReadFileType (path : String)
  | FailedToReadFileName (path : String)
  | FailedToReadDirectory (path : String)
  | PathNoLongerExists (path : String)
deriving DecidableEq, Repr

inductive RuntimeError where
  | FailedToExecute (code : Int)
  | FailedToRun
deriving DecidableEq, Repr

inductive CommandErrorCategory where
  | Argument (e : ArgumentError)
  | Runtime (e : RuntimeError)
  | Filesystem (e : FilesystemError)
  | Terminal (e : TerminalError)
deriving DecidableEq, Repr

structure CommandErrorContext where
  command_type : CommandType
  command_name : String
  command_args : List String
deriving DecidableEq, Repr

structure CommandError where
  kind : CommandErrorCategory
  context : CommandErrorContext
deriving DecidableEq, Repr

/-- rush-error/src/lib.rs: the top-level error union over the two layers. -/
inductive RushError where
  | Eval (e : EvalError)
  | Exec (e : CommandError)
deriving DecidableEq, Repr

/-- rush-error/src/lib.rs, RushError::command_name_if_unknown: returns the
requested command name iff the error is an eval-layer Dispatch UnknownCommand. -/
def RushError.command_name_if_unknown : RushError → Option String
  | .Eval e =>
    match e.kind with
    | .Dispatch (.UnknownCommand name) => some name
    | .Dispatch _ => none
  | _ => none

/-! ## Error rendering

Rust Display output is line structured; we model each Display implementation
as the list of lines of its output (each individual message is a single line,
so the list form is exactly what str::lines() yields on the rendered text). -/

/-- Display for DispatchError (eval_errors.rs). -/
def DispatchError.message : DispatchError → String
  | .UnknownCommand name =>
      "Command name '" ++ name ++ "' not found as a builtin or an executable in PATH"
  | .NotAnExecutable perms =>
      "File lacks executable permissions. Current permissions: " ++ toString perms
  | .FailedToReadMetadata name =>
      "Command metadata for '" ++ name ++ "' could not be read"

/-- Display for EvalErrorCategory (eval_errors.rs): category line then message line. -/
def EvalErrorCategory.renderLines : EvalErrorCategory → List String
  | .Dispatch e => ["[CATEGORY]: Dispatch", "[MESSAGE]: " ++ e.message]

/-- Display for EvalErrorContext (eval_errors.rs): command line then arguments line. -/
def EvalErrorContext.renderLines (c : EvalErrorContext) : List String :=
  ["[COMMAND]: " ++ c.command_name,
   "[ARGUMENTS]: " ++ String.intercalate " " c.command_args]

/-- rush-error/src/lib.rs, error_fmt: an [ERROR]: header, every line of the kind
indented by four spaces, a [CONTEXT]: header, every line of the context indented
by four spaces. -/
def error_fmt (kind context : List String) : List String :=
  "[ERROR]:" :: (kind.map (fun l => "    " ++ l) ++
    ("[CONTEXT]:" :: context.map (fun l => "    " ++ l)))

/-- Display for EvalError (eval_errors.rs) delegates to error_fmt. -/
def EvalError.renderLines (e : EvalError) : List String :=
  error_fmt e.kind.renderLines e.context.renderLines

/-- Display messages for the exec-layer kinds (exec_errors.rs). -/
def ArgumentError.message : ArgumentError → String
  | .InvalidArgumentCount expected actual =>
      "Expected " ++ toString expected ++ " arguments, got " ++ toString actual
  | .InvalidArgument arg => "Invalid argument: " ++ arg
  | .InvalidValue value => "Invalid value: " ++ value

def TerminalError.message : TerminalError → String
  | .FailedToParseStdout s => "Failed to parse stdout: " ++ s
  | .FailedToParseStderr s => "Failed to parse stderr: " ++ s

def FilesystemError.message : FilesystemError → String
  | .FailedToReadFileType p => "Failed to read file type: " ++ p
  | .FailedToReadFileName p => "Failed to read file name: " ++ p
  | .FailedToReadDirectory p => "Failed to read directory: " ++ p
  | .PathNoLongerExists p => "Previously-valid path no longer exists: " ++ p

def RuntimeError.message : RuntimeError → String
  | .FailedToExecute code => "Executable failed to run with exit code: " ++ toString code
  | .FailedToRun => "Failed to run builtin for some reason"

def CommandErrorCategory.categoryName : CommandErrorCategory → String
  | .Argument _ => "Argument"
  | .Runtime _ => "Runtime"
  | .Filesystem _ => "Filesystem"
  | .Terminal _ => "Terminal"

def CommandErrorCategory.message : CommandErrorCategory → String
  | .Argument e => e.message
  | .Runtime e => e.message
  | .Filesystem e => e.message
  | .Terminal e => e.message

/-- Display for CommandErrorCategory (exec_errors.rs). -/
def CommandErrorCategory.renderLines (k : CommandErrorCategory) : List String :=
  ["[CATEGORY]: " ++ k.categoryName, "[MESSAGE]: " ++ k.message]

def CommandType.render : CommandType → String
  | .Builtin => "Builtin"
  | .Executable => "Executable"

/-- Display for CommandErrorContext (exec_errors.rs): the write! emits the
command name line, then the arguments line, then the type line (the type_str
is built first but written last). -/
def CommandErrorContext.renderLines (c : CommandErrorContext) : List String :=
  ["[COMMAND]: " ++ c.command_name,
   "[ARGUMENTS]: " ++ String.intercalate " " c.command_args,
   "[TYPE]: " ++ c.command_type.render]

/-- Display for CommandError (exec_errors.rs).  The Rust impl interpolates the
kind and context with a "\x7b:4\x7d" width-4 format spec; a width spec is only
honoured by Display impls that call Formatter::pad, which these nested impls do
not, so the kind and context lines are emitted without any indentation. -/
def CommandError.renderLines (e : CommandError) : List String :=
  "[ERROR]:" :: (e.kind.renderLines ++ ("[CONTEXT]:" :: e.context.renderLines))

/-- Display for RushError (lib.rs) delegates to the wrapped layer's Display. -/
def RushError.renderLines : RushError → List String
  | .Eval e => e.renderLines
  | .Exec e => e.renderLines

/-- Modelled from the spec: the exact user-facing error text layout of spec §6
(the repository has no single function spelling this layout out; this
definition follows the spec's words, for comparison with the two renderers). -/
def specErrorLayoutLines (category message name args : String) : List String :=
  ["[ERROR]:",
   "    [CATEGORY]: " ++ category,
   "    [MESSAGE]: " ++ message,
   "[CONTEXT]:",
   "    [COMMAND]: " ++ name,
   "    [ARGUMENTS]: " ++ args]

/-! ## Command registry and Dispatcher (rush-eval/src/dispatcher.rs)

A Builtin (rush-exec/src/commands.rs) carries its true name, its alias list
and a boxed Rust closure; the closure is not inspected by resolution, so it is
not part of the embedded record (dispatch behaviour is abstracted by the
DispatchEnv parameters below). -/

structure Builtin where
  true_name : String
  aliases : List String
deriving DecidableEq, Repr

/-- Dispatcher::resolve: a single pass over the registered commands; for each
command in registration order, the true name is compared first, then the alias
set, before moving to the next command. -/
def Dispatcher.resolve : List Builtin → String → Option Builtin
  | [], _ => none
  | command :: rest, command_name =>
    if command.true_name == command_name then some command
    else if command.aliases.contains command_name then some command
    else Dispatcher.resolve rest command_name

/-- The default registration table of Dispatcher::default (names and aliases). -/
def Dispatcher.defaultCommands : List Builtin :=
  [⟨"test", ["t"]⟩,
   ⟨"exit", ["quit", "q"]⟩,
   ⟨"working-directory", ["pwd", "wd"]⟩,
   ⟨"change-directory", ["cd"]⟩,
   ⟨"list-directory", ["directory", "list", "ls", "dir"]⟩,
   ⟨"previous-directory", ["back", "b", "prev", "pd"]⟩,
   ⟨"next-directory", ["forward", "f", "next", "nd"]⟩,
   ⟨"clear-terminal", ["clear", "cls"]⟩,
   ⟨"make-file", ["create", "touch", "new", "mf"]⟩,
   ⟨"make-directory", ["mkdir", "md"]⟩,
   ⟨"delete-file", ["delete", "remove", "rm", "del", "df"]⟩,
   ⟨"read-file", ["read", "cat", "rf"]⟩,
   ⟨"run-executable", ["run", "exec", "re"]⟩,
   ⟨"configure", ["config", "conf"]⟩,
   ⟨"environment-variable", ["environment", "env", "ev"]⟩,
   ⟨"edit-path", ["path", "ep"]⟩]

/-- The environment a dispatch call runs against: the outcome of
Path::from_path_var over the shell's PATH, the outcome of fs_err::metadata
(the permission mode bits), and the behaviours of Builtin::run and
Executable::run (which thread the mutable shell/console state St). -/
structure DispatchEnv (St : Type) where
  pathLookup : String → Option String
  metadata : String → Option Nat
  builtinRun : Builtin → List String → St → St × Except RushError Unit
  exeRun : String → List String → St → St × Except RushError Unit

/-- Dispatcher::dispatch: registry lookup, else PATH search, metadata read and
the 0o111 any-execute permission mask check, else the structured eval errors. -/
def Dispatcher.dispatch {St : Type} (env : DispatchEnv St) (commands : List Builtin)
    (command_name : String) (command_args : List String) (st : St) :
    St × Except RushError Unit :=
  match Dispatcher.resolve commands command_name with
  | some command => env.builtinRun command command_args st
  | none =>
    match env.pathLookup command_name with
    | some path =>
      match env.metadata path with
      | some permission_code =>
        if permission_code &&& 0o111 == 0 then
          (st, .error (.Eval ⟨.Dispatch (.NotAnExecutable permission_code),
            ⟨command_name, command_args⟩⟩))
        else
          env.exeRun path command_args st
      | none =>
        (st, .error (.Eval ⟨.Dispatch (.FailedToReadMetadata path),
          ⟨command_name, command_args⟩⟩))
    | none =>
      (st, .error (.Eval ⟨.Dispatch (.UnknownCommand command_name),
        ⟨command_name, command_args⟩⟩))

/-- The first for-loop of Dispatcher::eval: dispatch every parsed
(name, args) pair in order, threading the shell/console state, collecting
each result. -/
def Dispatcher.evalLoop {St : Type} (dispatch : St → String × List String → St × Except RushError Unit) :
    List (String × List String) → St → St × List (Except RushError Unit)
  | [], st => (st, [])
  | c :: rest, st =>
    let (st', r) := dispatch st c
    let (st'', rs) := Dispatcher.evalLoop dispatch rest st'
    (st'', r :: rs)

/-- The second for-loop of Dispatcher::eval: return the first Err in the
collected results, else Ok. -/
def Dispatcher.firstError : List (Except RushError Unit) → Except RushError Unit
  | [] => .ok ()
  | .error e :: _ => .error e
  | .ok _ :: rest => Dispatcher.firstError rest

/-- Dispatcher::eval: parse the line (the parser is an external collaborator,
passed in as a function), dispatch every pair, then report the first error. -/
def Dispatcher.eval {St : Type} (parse : String → List (String × List String))
    (dispatch : St → String × List String → St × Except RushError Unit)
    (line : String) (st : St) : St × Except RushError Unit :=
  let commands := parse line
  let (st', results) := Dispatcher.evalLoop dispatch commands st
  (st', Dispatcher.firstError results)

/-- Bool test for an Err result, as used by the result scan in eval. -/
def isErrResult : Except RushError Unit → Bool
  | .error _ => true
  | .ok _ => false

/-! ## Execution engine (rush-exec/src/commands.rs, Executable::run)

The OS process is abstracted by: whether the spawn succeeds, the packets each
reader thread delivers over its channel (an Ok line, or the decode-failure
error the thread would return), the number of try_wait polls until the child
is observed exited, and the final wait() status.  The channel abstraction is
synchronous: recv_timeout yields the next pending packet when one exists and
otherwise reports the channel drained for this pass (the 100 ms timeout bound
of the code is a real-time quantity with no logical content). -/

/-- std::process::ExitStatus: an exit code, or signal termination in which
case code() reports none. -/
inductive ExitStatus where
  | exited (code : Int)
  | signaled
deriving DecidableEq, Repr

def ExitStatus.code : ExitStatus → Option Int
  | .exited c => some c
  | .signaled => none

def ExitStatus.success (s : ExitStatus) : Bool :=
  s.code == some 0

/-- The tail of Executable::run: match on status.success(); on failure build a
Runtime FailedToExecute error from status.code().unwrap_or(126). -/
def exitStatusMapping (exe_name : String) (args : List String) (status : ExitStatus) :
    Except CommandError Unit :=
  if status.success then .ok ()
  else .error ⟨.Runtime (.FailedToExecute (status.code.getD 126)),
    ⟨.Executable, exe_name, args⟩⟩

/-- A packet on a reader-thread channel: a decoded line, or the decode-failure
error that the coordinator propagates with the question-mark operator. -/
abbrev Packet := Except CommandError String

/-- The mutable state of the coordinator drain loop: the packets still pending
on each channel, the number of try_wait polls before the child is observed
exited, the three done flags, and the lines written to the console sink. -/
structure LoopState where
  stdoutQueue : List Packet
  stderrQueue : List Packet
  pollsUntilExit : Nat
  stdout_done : Bool
  stderr_done : Bool
  process_done : Bool
  sink : List String
deriving Repr

/-- The stdout arm of one loop iteration: a pending Ok line is shown on the
console, a pending Err packet is propagated (early return), an empty channel
marks stdout drained for this pass. -/
def recvStdout (s : LoopState) : Except CommandError LoopState :=
  match s.stdoutQueue with
  | .ok line :: rest =>
      .ok { s with stdoutQueue := rest, sink := s.sink ++ [line] }
  | .error e :: _ => .error e
  | [] => .ok { s with stdout_done := true }

/-- The stderr arm, identical in shape to the stdout arm. -/
def recvStderr (s : LoopState) : Except CommandError LoopState :=
  match s.stderrQueue with
  | .ok line :: rest =>
      .ok { s with stderrQueue := rest, sink := s.sink ++ [line] }
  | .error e :: _ => .error e
  | [] => .ok { s with stderr_done := true }

/-- The non-blocking try_wait poll: skipped once the child is known exited; on
detecting exit both drained flags are reset to force one final drain pass;
while the child lives the coordinator sleeps briefly (the sleep has no logical
content) and the poll countdown decreases. -/
def pollChild (s : LoopState) : LoopState :=
  if s.process_done then s
  else
    match s.pollsUntilExit with
    | 0 => { s with process_done := true, stdout_done := false, stderr_done := false }
    | n + 1 => { s with pollsUntilExit := n }

/-- One full iteration of the drain loop: stdout recv, stderr recv, then the
child poll; an Err packet aborts the iteration, returning the state printed so
far together with the propagated error. -/
def loopIter (s : LoopState) : LoopState × Option CommandError :=
  match recvStdout s with
  | .error e => (s, some e)
  | .ok s1 =>
    match recvStderr s1 with
    | .error e => (s1, some e)
    | .ok s2 => (pollChild s2, none)

/-- How the drain loop finished: the while condition became false, or an Err
packet forced an early return from run. -/
inductive LoopResult where
  | normal (s : LoopState)
  | aborted (s : LoopState) (e : CommandError)
deriving Repr

/-- The drain loop: while not (stdout_done and stderr_done and process_done),
run one iteration.  Fuel bounds the number of iterations; none means the fuel
ran out before the loop finished. -/
def drainLoop : Nat → LoopState → Option LoopResult
  | 0, _ => none
  | fuel + 1, s =>
    if s.stdout_done && s.stderr_done && s.process_done then some (.normal s)
    else
      match loopIter s with
      | (s', some e) => some (.aborted s' e)
      | (s', none) => drainLoop fuel s'

/-- Ordering events of one Executable::run call, for stating that the two
reader threads are joined after the loop and before run returns. -/
inductive RunEvent where
  | spawned
  | joined_stdout
  | joined_stderr
  | returned
deriving DecidableEq, Repr

/-- What one Executable::run call produced: the console sink lines, the
ordering events, and the returned Result. -/
structure RunOutcome where
  sink : List String
  events : List RunEvent
  result : Except CommandError Unit
deriving Repr

/-- The initial coordinator state: nothing drained, nothing printed. -/
def initLoopState (stdoutPackets stderrPackets : List Packet)
    (pollsUntilExit : Nat) : LoopState :=
  ⟨stdoutPackets, stderrPackets, pollsUntilExit, false, false, false, []⟩

/-- Executable::run.  exe_name is self.path.to_string() and the error paths
attach an Executable-typed context carrying it.  A failed spawn returns the
Filesystem PathNoLongerExists error before any thread is created; an Err
packet returns mid-loop, before the joins; the normal path joins both reader
threads after the loop and then maps the wait() status. -/
def Executable.run (path : String) (args : List String) (spawnOk : Bool)
    (stdoutPackets stderrPackets : List Packet) (pollsUntilExit : Nat)
    (status : ExitStatus) (fuel : Nat) : Option RunOutcome :=
  if spawnOk then
    match drainLoop fuel (initLoopState stdoutPackets stderrPackets pollsUntilExit) with
    | none => none
    | some (.aborted s e) =>
        some ⟨s.sink, [.spawned, .returned], .error e⟩
    | some (.normal s) =>
        some ⟨s.sink, [.spawned, .joined_stdout, .joined_stderr, .returned],
          exitStatusMapping path args status⟩
  else
    some ⟨[], [.returned],
      .error ⟨.Filesystem (.PathNoLongerExists path), ⟨.Executable, path, args⟩⟩⟩

/-- The termination measure of the drain loop: pending packets, pending polls,
and weights 3/1/1 for the not-yet-done process/stdout/stderr flags (the
process weight dominates the two flag resets done on exit detection). -/
def loopMeasure (s : LoopState) : Nat :=
  s.stdoutQueue.length + s.stderrQueue.length + s.pollsUntilExit +
    (if s.process_done then 0 else 3) +
    (if s.stdout_done then 0 else 1) +
    (if s.stderr_done then 0 else 1)

/-! ## Builtins (rush-exec/src/builtins.rs) -/

/-- The builtin test, whose check_args! guard rejects any nonzero argument
count: the usage line is shown and a structured InvalidArgumentCount error
returned; with zero arguments it prints its banner.  The returned pair is
(console lines, result). -/
def Builtins.test (args : List String) : List String × Except RushError Unit :=
  if args.length ≠ 0 then
    (["Usage: test "],
     .error (.Exec ⟨.Argument (.InvalidArgumentCount 0 args.length),
       ⟨.Builtin, "test", args⟩⟩))
  else
    (["Test command!"], .ok ())

/-- The builtin run-executable.  There is no check_args! guard: args[0] is
indexed directly, which on an empty argument list is an out-of-bounds panic,
modelled as none.  Path::from_str resolution is abstracted by resolvePath; on
success the first argument is removed and the Executable is run on the
remaining ones, returned here as the (resolved path, remaining argv) request. -/
def Builtins.run_executable (resolvePath : String → Option String)
    (args : List String) : Option (Except RushError (String × List String)) :=
  match args with
  | [] => none
  | first :: rest =>
    match resolvePath first with
    | none =>
        some (.error (.Exec ⟨.Runtime .FailedToRun,
          ⟨.Builtin, "run-executable", first :: rest⟩⟩))
    | some executable_path => some (.ok (executable_path, rest))

/-! ## Top-level error handling (rush/src/main.rs, handle_error) -/

/-- handle_error: on Err, print the short unknown-command hint when the error
is an UnknownCommand (unconditionally), and additionally print the full
structured dump when show_errors is enabled; on Ok, record success.  Returns
(console lines, whether set_success(true) was called). -/
def handle_error (error : Except RushError Unit) (show_errors : Bool) :
    List String × Bool :=
  match error with
  | .error e =>
    let hint :=
      match e.command_name_if_unknown with
      | some command_name => ["Unknown command: " ++ command_name]
      | none => []
    let dump := if show_errors then e.renderLines else []
    (hint ++ dump, false)
  | .ok _ => ([], true)

/-! ## Helper lemmas -/

lemma indent4_line (p r q : String) (h : "    " ++ p = r) :
    "    " ++ (p ++ q) = r ++ q := by
  rw [← h, String.append_assoc]

lemma evalLoop_fst {St : Type}
    (dispatch : St → String × List String → St × Except RushError Unit)
    (cs : List (String × List String)) (st : St) :
    (Dispatcher.evalLoop dispatch cs st).1
      = cs.foldl (fun s c => (dispatch s c).1) st := by
  induction cs generalizing st with
  | nil => rfl
  | cons c rest ih =>
    simp only [Dispatcher.evalLoop, List.foldl_cons]
    exact ih (dispatch st c).1

lemma firstError_eq_find (l : List (Except RushError Unit)) :
    Dispatcher.firstError l = (l.find? isErrResult).getD (.ok ()) := by
  induction l with
  | nil => rfl
  | cons r rest ih =>
    cases r with
    | error e => rfl
    | ok _ => simpa [Dispatcher.firstError, isErrResult, List.find?] using ih

/-! ## Claim theorems -/

/-- C1: Dispatcher.eval executes every parsed (name, args) sub-command
unconditionally — the final shell/console state is the fold of dispatch over
the whole parsed list, regardless of intermediate failures — and returns the
first Err in list order among the collected results, or Ok when none failed. -/
theorem eval_runs_all_and_returns_first_error {St : Type}
    (parse : String → List (String × List String))
    (dispatch : St → String × List String → St × Except RushError Unit)
    (line : String) (st : St) :
    (Dispatcher.eval parse dispatch line st).1
      = (parse line).foldl (fun s c => (dispatch s c).1) st ∧
    (Dispatcher.eval parse dispatch line st).2
      = ((Dispatcher.evalLoop dispatch (parse line) st).2.find? isErrResult).getD (.ok ()) := by
  unfold Dispatcher.eval
  exact ⟨evalLoop_fst dispatch (parse line) st,
    firstError_eq_find (Dispatcher.evalLoop dispatch (parse line) st).2⟩

/-- C2 counterexample: with a registry in which the first-registered command's
alias set contains the second command's true name, resolve returns the
first-registered command, not the one whose true_name matches — so a
true_name match does not take priority over an alias match of an
earlier-registered command. -/
theorem resolve_true_name_not_global_priority :
    Dispatcher.resolve [⟨"a", ["x"]⟩, ⟨"x", []⟩] "x" = some ⟨"a", ["x"]⟩ ∧
    (⟨"a", ["x"]⟩ : Builtin).true_name ≠ "x" ∧
    (⟨"x", []⟩ : Builtin) ∈ [(⟨"a", ["x"]⟩ : Builtin), ⟨"x", []⟩] ∧
    (⟨"x", []⟩ : Builtin).true_name = "x" := by
  decide

/-- C2 amended: resolve scans the registered commands in a single pass in
registration order, checking each command's true_name and then its alias set
before moving on; it returns the first command matching by either criterion,
else none.  (A true_name match therefore beats alias matches of later
commands only; an earlier-registered command's alias can shadow a later
command's true name.) -/
theorem resolve_first_match (cmds : List Builtin) (name : String) :
    Dispatcher.resolve cmds name
      = cmds.find? (fun c => c.true_name == name || c.aliases.contains name) := by
  induction cmds with
  | nil => rfl
  | cons c rest ih =>
    cases h1 : (c.true_name == name) with
    | true =>
      simp only [beq_iff_eq] at h1
      simp [Dispatcher.resolve, List.find?, h1]
    | false =>
      simp only [beq_eq_false_iff_ne, ne_eq] at h1
      cases h2 : (c.aliases.contains name) with
      | true =>
        simp at h2
        simp [Dispatcher.resolve, List.find?, h1, h2]
      | false =>
        simp at h2
        have h1' : (c.true_name == name) = false := by simp [h1]
        simp [Dispatcher.resolve, List.find?, h1, h1', h2, ih]

/-- C3: the exit-status mapping of Executable::run sends exit code 0 to
success, a nonzero exit code C to Runtime FailedToExecute C, and a
signal-terminated status with no reported code to Runtime FailedToExecute 126,
each with the Executable-typed context. -/
theorem exit_status_mapping_spec (exe_name : String) (args : List String) :
    exitStatusMapping exe_name args (.exited 0) = .ok () ∧
    (∀ c : Int, c ≠ 0 → exitStatusMapping exe_name args (.exited c)
      = .error ⟨.Runtime (.FailedToExecute c), ⟨.Executable, exe_name, args⟩⟩) ∧
    exitStatusMapping exe_name args .signaled
      = .error ⟨.Runtime (.FailedToExecute 126), ⟨.Executable, exe_name, args⟩⟩ := by
  refine ⟨rfl, ?_, rfl⟩
  intro c hc
  simp [exitStatusMapping, ExitStatus.success, ExitStatus.code, hc]

/-- C3 witness: exit code 1 maps to Runtime FailedToExecute 1. -/
theorem exit_status_mapping_spec_witness :
    (1 : Int) ≠ 0 ∧
    exitStatusMapping "/bin/false" [] (.exited 1)
      = .error ⟨.Runtime (.FailedToExecute 1), ⟨.Executable, "/bin/false", []⟩⟩ :=
  ⟨by decide, (exit_status_mapping_spec "/bin/false" []).2.1 1 (by decide)⟩

/-- C6: when the spawn fails, Executable::run returns the Filesystem
PathNoLongerExists error carrying the resolved path (with the
Executable-typed context naming that same path), rather than crashing. -/
theorem run_spawn_failure (path : String) (args : List String)
    (sp ep : List Packet) (polls : Nat) (status : ExitStatus) (fuel : Nat) :
    Executable.run path args false sp ep polls status fuel
      = some ⟨[], [.returned],
          .error ⟨.Filesystem (.PathNoLongerExists path),
            ⟨.Executable, path, args⟩⟩⟩ := rfl

/-- C8 counterexample: a concrete execution-layer error whose rendering does
not follow the four-space-indented layout of spec §6 (its category line is
unindented and an extra [TYPE] line follows the arguments), so the two layers
do not share one identical layout. -/
theorem exec_render_not_spec_layout :
    CommandError.renderLines
        ⟨.Runtime (.FailedToExecute 1), ⟨.Executable, "/bin/false", []⟩⟩
      ≠ specErrorLayoutLines "Runtime" (RuntimeError.FailedToExecute 1).message
          "/bin/false" "" := by
  decide

/-- C8 amended: the dispatch (eval) layer renders errors exactly per the
shared indented layout — [ERROR]: header, category and message lines indented
four spaces, [CONTEXT]: header, command and arguments lines indented four
spaces — but the execution layer renders the same headers with no
indentation on the category, message, command and arguments lines and with an
additional [TYPE] line after the arguments. -/
theorem render_layout_per_layer (d : DispatchError) (ec : EvalErrorContext)
    (e : CommandError) :
    EvalError.renderLines ⟨.Dispatch d, ec⟩
      = specErrorLayoutLines "Dispatch" d.message ec.command_name
          (String.intercalate " " ec.command_args) ∧
    e.renderLines
      = ["[ERROR]:",
         "[CATEGORY]: " ++ e.kind.categoryName,
         "[MESSAGE]: " ++ e.kind.message,
         "[CONTEXT]:",
         "[COMMAND]: " ++ e.context.command_name,
         "[ARGUMENTS]: " ++ String.intercalate " " e.context.command_args,
         "[TYPE]: " ++ e.context.command_type.render] := by
  constructor
  · simp only [EvalError.renderLines, error_fmt, EvalErrorCategory.renderLines,
      EvalErrorContext.renderLines, specErrorLayoutLines, List.map_cons,
      List.map_nil, List.cons_append, List.nil_append, List.cons.injEq,
      and_true, true_and]
    exact ⟨by decide, indent4_line _ _ _ (by decide),
      indent4_line _ _ _ (by decide), indent4_line _ _ _ (by decide)⟩
  · simp [CommandError.renderLines, CommandErrorCategory.renderLines,
      CommandErrorContext.renderLines]

/-- C7: for a PATH candidate whose metadata is readable, dispatch checks the
permission bits against the any-execute mask: when mode &&& 0o111 is zero it
returns Dispatch NotAnExecutable carrying the exact observed permission value,
and when it is nonzero it runs the candidate as an Executable. -/
theorem dispatch_permission_check {St : Type} (env : DispatchEnv St)
    (commands : List Builtin) (name : String) (args : List String) (st : St)
    (path : String) (mode : Nat)
    (hres : Dispatcher.resolve commands name = none)
    (hpath : env.pathLookup name = some path)
    (hmeta : env.metadata path = some mode) :
    (mode &&& 0o111 = 0 →
      Dispatcher.dispatch env commands name args st
        = (st, .error (.Eval ⟨.Dispatch (.NotAnExecutable mode), ⟨name, args⟩⟩))) ∧
    (mode &&& 0o111 ≠ 0 →
      Dispatcher.dispatch env commands name args st = env.exeRun path args st) := by
  unfold Dispatcher.dispatch
  constructor
  · intro h
    simp [hres, hpath, hmeta, h]
  · intro h
    have hb : (mode &&& 0o111 == 0) = false := by simpa using h
    simp [hres, hpath, hmeta, hb]

/-- C7 witness: a candidate with mode 420 (octal 644, no execute bit) is
rejected as NotAnExecutable carrying 420. -/
theorem dispatch_permission_check_witness :
    420 &&& 0o111 = 0 ∧
    Dispatcher.dispatch
        (⟨fun _ => some "/home/user/notes.txt", fun _ => some 420,
          fun _ _ s => (s, .ok ()), fun _ _ s => (s, .ok ())⟩ : DispatchEnv Unit)
        [] "notes.txt" [] ()
      = ((), .error (.Eval ⟨.Dispatch (.NotAnExecutable 420), ⟨"notes.txt", []⟩⟩)) :=
  ⟨by decide,
    (dispatch_permission_check
      (⟨fun _ => some "/home/user/notes.txt", fun _ => some 420,
        fun _ _ s => (s, .ok ()), fun _ _ s => (s, .ok ())⟩ : DispatchEnv Unit)
      [] "notes.txt" [] () "/home/user/notes.txt" 420 rfl rfl rfl).1 (by decide)⟩

/-- C9: run-executable performs no argument-count check — with a non-empty
argument list the access to argument 0 is in bounds and the first argument is
removed before the Executable is run, so it is not duplicated into the argv;
with the empty argument list the access is out of bounds (modelled as none, a
panic, not a structured error), unlike the fixed-arity builtins such as test,
which reject a wrong count with a structured InvalidArgumentCount error. -/
theorem run_executable_no_arity_check (resolvePath : String → Option String) :
    (∀ first rest path, resolvePath first = some path →
      Builtins.run_executable resolvePath (first :: rest) = some (.ok (path, rest))) ∧
    Builtins.run_executable resolvePath [] = none ∧
    (∀ a as, (Builtins.test (a :: as)).2
      = .error (.Exec ⟨.Argument (.InvalidArgumentCount 0 (a :: as).length),
          ⟨.Builtin, "test", a :: as⟩⟩)) := by
  refine ⟨?_, rfl, ?_⟩
  · intro first rest path h
    simp [Builtins.run_executable, h]
  · intro a as
    simp [Builtins.test]

/-- C9 witness: run-executable on ["ls", "-l"] resolves "ls" and runs it with
argv ["-l"]. -/
theorem run_executable_no_arity_check_witness :
    Builtins.run_executable (fun _ => some "/bin/ls") ["ls", "-l"]
      = some (.ok ("/bin/ls", ["-l"])) :=
  (run_executable_no_arity_check (fun _ => some "/bin/ls")).1 "ls" ["-l"] "/bin/ls" rfl

/-- C10: for an UnknownCommand error the short hint line is written
unconditionally, whatever show_errors is; when show_errors is enabled the full
structured dump is written after the hint for the same error. -/
theorem handle_error_unknown_hint (name cname : String) (args : List String)
    (show_errors : Bool) :
    handle_error
        (.error (.Eval ⟨.Dispatch (.UnknownCommand name), ⟨cname, args⟩⟩))
        show_errors
      = (["Unknown command: " ++ name] ++
          (if show_errors then
            (RushError.Eval ⟨.Dispatch (.UnknownCommand name), ⟨cname, args⟩⟩).renderLines
          else []),
         false) := by
  cases show_errors <;> rfl


/-! ## Drain-loop termination and fidelity -/

lemma loopIter_measure (s : LoopState)
    (hc : (s.stdout_done && s.stderr_done && s.process_done) = false)
    (hnone : (loopIter s).2 = none) :
    loopMeasure (loopIter s).1 < loopMeasure s := by
  obtain ⟨q1, q2, polls, d1, d2, dp, k⟩ := s
  rcases q1 with _ | ⟨e1 | l1, t1⟩ <;>
    rcases q2 with _ | ⟨e2 | l2, t2⟩ <;>
      cases d1 <;> cases d2 <;> cases dp <;>
        rcases polls with _ | n <;>
          simp_all [loopIter, recvStdout, recvStderr, pollChild, loopMeasure] <;>
            omega

/-- Generic runner: any invariant preserved by non-final iterations (which in
particular never abort) forces a normal loop exit within the measure's fuel
bound, with the invariant and the three done flags holding at exit. -/
lemma drainLoop_run (P : LoopState → Prop)
    (hstep : ∀ s, P s → (s.stdout_done && s.stderr_done && s.process_done) = false →
      (loopIter s).2 = none ∧ P (loopIter s).1) :
    ∀ fuel s, loopMeasure s < fuel → P s →
      ∃ s', drainLoop fuel s = some (.normal s') ∧ P s' ∧
        (s'.stdout_done && s'.stderr_done && s'.process_done) = true := by
  intro fuel
  induction fuel with
  | zero => intro s hm; omega
  | succ n ih =>
    intro s hm hP
    cases hcond : (s.stdout_done && s.stderr_done && s.process_done) with
    | true =>
      refine ⟨s, ?_, hP, hcond⟩
      unfold drainLoop
      simp [hcond]
    | false =>
      obtain ⟨hnone, hP1⟩ := hstep s hP hcond
      have hdec := loopIter_measure s hcond hnone
      rcases hIter : loopIter s with ⟨s1, o⟩
      rw [hIter] at hnone hP1 hdec
      dsimp only at hnone hP1 hdec
      subst hnone
      obtain ⟨s', hd, hP', hdone⟩ := ih s1 (by omega) hP1
      refine ⟨s', ?_, hP', hdone⟩
      unfold drainLoop
      simp [hcond, hIter, hd]

/-- Both channels hold only decoded lines (no decode-failure packets). -/
def QueuesOk (s : LoopState) : Prop :=
  (∃ r : List String, s.stdoutQueue = r.map Except.ok) ∧
  (∃ r : List String, s.stderrQueue = r.map Except.ok)

lemma loopIter_queuesOk (s : LoopState) (h : QueuesOk s) :
    (loopIter s).2 = none ∧ QueuesOk (loopIter s).1 := by
  obtain ⟨⟨r1, hq1⟩, ⟨r2, hq2⟩⟩ := h
  obtain ⟨q1, q2, polls, d1, d2, dp, k⟩ := s
  dsimp only at hq1 hq2
  subst hq1 hq2
  rcases r1 with _ | ⟨l1, t1⟩ <;> rcases r2 with _ | ⟨l2, t2⟩
  · refine ⟨?_, ⟨[], ?_⟩, ⟨[], ?_⟩⟩ <;>
      cases dp <;> rcases polls with _ | n <;>
        simp [loopIter, recvStdout, recvStderr, pollChild]
  · refine ⟨?_, ⟨[], ?_⟩, ⟨t2, ?_⟩⟩ <;>
      cases dp <;> rcases polls with _ | n <;>
        simp [loopIter, recvStdout, recvStderr, pollChild]
  · refine ⟨?_, ⟨t1, ?_⟩, ⟨[], ?_⟩⟩ <;>
      cases dp <;> rcases polls with _ | n <;>
        simp [loopIter, recvStdout, recvStderr, pollChild]
  · refine ⟨?_, ⟨t1, ?_⟩, ⟨t2, ?_⟩⟩ <;>
      cases dp <;> rcases polls with _ | n <;>
        simp [loopIter, recvStdout, recvStderr, pollChild]

/-- The coordinator invariant behind stdout fidelity: the pending stdout
packets are the not-yet-printed suffix of the stream's lines, stderr is
silent, and a set stdout-drained flag certifies the stream fully printed. -/
def StdoutFidelityInv (lines : List String) (s : LoopState) : Prop :=
  ∃ rem, s.stdoutQueue = rem.map Except.ok ∧ s.sink ++ rem = lines ∧
    s.stderrQueue = [] ∧ (s.stdout_done = true → rem = [])

lemma loopIter_fidelity (lines : List String) (s : LoopState)
    (h : StdoutFidelityInv lines s) :
    (loopIter s).2 = none ∧ StdoutFidelityInv lines (loopIter s).1 := by
  obtain ⟨q1, q2, polls, d1, d2, dp, k⟩ := s
  obtain ⟨rem, hq, hsink, hq2, hflag⟩ := h
  dsimp only at hq hsink hq2 hflag
  subst hq hq2
  rcases rem with _ | ⟨l, rest⟩
  · refine ⟨?_, ⟨[], ?_, ?_, ?_, ?_⟩⟩ <;>
      cases dp <;> rcases polls with _ | n <;>
        simp_all [loopIter, recvStdout, recvStderr, pollChild]
  · have hd1 : d1 = false := by
      cases d1
      · rfl
      · exact absurd (hflag rfl) (by simp)
    subst hd1
    refine ⟨?_, ⟨rest, ?_, ?_, ?_, ?_⟩⟩ <;>
      cases dp <;> rcases polls with _ | n <;>
        simp_all [loopIter, recvStdout, recvStderr, pollChild]

/-- C5: the drain loop terminates once the child has exited (after any number
of status polls) and both streams have reached EOF (each having delivered any
finite number of lines), whatever the volume skew between the two streams; on
this normal exit path both reader threads are joined after the loop and before
run returns, as the event trace records. -/
theorem drain_loop_terminates_then_joins (path : String)
    (args l1 l2 : List String) (E : Nat) (status : ExitStatus) :
    (∃ s, drainLoop (l1.length + l2.length + E + 6)
        (initLoopState (l1.map .ok) (l2.map .ok) E) = some (.normal s)) ∧
    (∃ out, Executable.run path args true (l1.map .ok) (l2.map .ok) E status
        (l1.length + l2.length + E + 6) = some out ∧
      out.events = [.spawned, .joined_stdout, .joined_stderr, .returned]) := by
  have hrun := drainLoop_run QueuesOk
    (fun s hP _ => loopIter_queuesOk s hP)
    (l1.length + l2.length + E + 6)
    (initLoopState (l1.map .ok) (l2.map .ok) E)
    (by simp [initLoopState, loopMeasure]; try omega)
    ⟨⟨l1, rfl⟩, ⟨l2, rfl⟩⟩
  obtain ⟨s, hd, -, -⟩ := hrun
  refine ⟨⟨s, hd⟩, ?_⟩
  refine ⟨⟨s.sink, [.spawned, .joined_stdout, .joined_stderr, .returned],
    exitStatusMapping path args status⟩, ?_, rfl⟩
  unfold Executable.run
  simp [hd]

/-- C4: an external command that writes the given lines to stdout, nothing to
stderr, and exits with code 0 yields exactly those lines on the output sink in
the original order, and Executable.run returns Ok. -/
theorem executable_run_stdout_fidelity (path : String)
    (args lines : List String) (E : Nat) :
    Executable.run path args true (lines.map .ok) [] E (.exited 0)
        (lines.length + E + 6)
      = some ⟨lines, [.spawned, .joined_stdout, .joined_stderr, .returned],
          .ok ()⟩ := by
  have hrun := drainLoop_run (StdoutFidelityInv lines)
    (fun s hP _ => loopIter_fidelity lines s hP)
    (lines.length + E + 6)
    (initLoopState (lines.map .ok) [] E)
    (by simp [initLoopState, loopMeasure]; try omega)
    ⟨lines, rfl, by simp [initLoopState], rfl, by simp [initLoopState]⟩
  obtain ⟨s, hd, hP, hdone⟩ := hrun
  obtain ⟨rem, hq, hsink, hq2, hflag⟩ := hP
  have hstdout : s.stdout_done = true := by
    rcases Bool.and_eq_true_iff.mp hdone with ⟨h', -⟩
    exact (Bool.and_eq_true_iff.mp h').1
  have hrem : rem = [] := hflag hstdout
  subst hrem
  have hsink' : s.sink = lines := by simpa using hsink
  unfold Executable.run
  simp [hd, hsink', exitStatusMapping, ExitStatus.success, ExitStatus.code]

end Rush
